import Mathlib

/-!
Verification of the marimo frontend data-source state layer and table UI
helpers: the connection registry reducers
(`core/cells/data-source-connections.ts`), the `allTablesAtom`
name-collision resolution, the datasources panel code-snippet emission,
the SQL engine selector, and the data-table row-id / virtualized
rendering logic.

JavaScript `Map`s are modelled as insertion-ordered association lists
(`JSMap`): `set` overwrites in place when the key exists and appends
otherwise, `delete` removes the entry, `get`/`has` find the first (and,
by construction, only) entry with the key.
-/

namespace Marimo

/-- Insertion-ordered association list modelling a JavaScript `Map` with
string keys. -/
abbrev JSMap (α : Type) : Type := List (String × α)

namespace JSMap

/-- `m.get(k)` of a JS `Map`: the value stored at `k`, if any. -/
def jsGet (m : JSMap α) (k : String) : Option α :=
  (m.find? (fun p => p.1 = k)).map (fun p => p.2)

/-- `m.has(k)` of a JS `Map`. -/
def jsHas (m : JSMap α) (k : String) : Bool :=
  m.any (fun p => p.1 = k)

/-- `m.set(k, v)` of a JS `Map`: overwrite in place when present,
append otherwise. -/
def jsSet (m : JSMap α) (k : String) (v : α) : JSMap α :=
  if m.any (fun p => p.1 = k) then
    m.map (fun p => if p.1 = k then (k, v) else p)
  else
    m ++ [(k, v)]

/-- `m.delete(k)` of a JS `Map` (returning the mutated map). -/
def jsDelete (m : JSMap α) (k : String) : JSMap α :=
  m.filter (fun p => ¬ (p.1 = k))

/-- The keys of the map, in insertion order. -/
def keys (m : JSMap α) : List String := m.map (fun p => p.1)

end JSMap

open JSMap

/-- `DEFAULT_ENGINE` from `data-source-connections.ts`. -/
def DEFAULT_ENGINE : String := "__marimo_duckdb"

/-- A column of a table (`DataTableColumn` from the kernel messages);
only the fields used by the verified code are modelled. -/
structure DataTableColumn where
  name : String
deriving Repr, DecidableEq

/-- `source_type` of a `DataTable`. -/
inductive SourceType where
  | local_
  | duckdb
  | connection
deriving Repr, DecidableEq

/-- A table (`DataTable` from the kernel messages); only the fields used
by the verified code are modelled.  `engine` is `string | null`, hence
`Option String`. -/
structure DataTable where
  name : String
  source_type : SourceType
  engine : Option String := none
  columns : List DataTableColumn := []
deriving Repr, DecidableEq

/-- A schema of a database (`Schema` from the kernel messages). -/
structure DBSchema where
  name : String
  tables : List DataTable
deriving Repr, DecidableEq

/-- A database of a connection (`Database` from the kernel messages). -/
structure Database where
  name : String
  schemas : List DBSchema
deriving Repr, DecidableEq

/-- `DataSourceConnection` from `data-source-connections.ts`. -/
structure DataSourceConnection where
  name : String
  dialect : String := ""
  source : String := ""
  display_name : String := ""
  databases : List Database := []
deriving Repr, DecidableEq

/-- `DataSourceState` from `data-source-connections.ts`. -/
structure DataSourceState where
  latestEngineSelected : String
  connectionsMap : JSMap DataSourceConnection
deriving Repr, DecidableEq

/-- `initialState()` from `data-source-connections.ts`. -/
def initialState : DataSourceState :=
  { latestEngineSelected := DEFAULT_ENGINE
    connectionsMap :=
      jsSet [] DEFAULT_ENGINE
        { name := DEFAULT_ENGINE
          dialect := "duckdb"
          source := "duckdb"
          display_name := "DuckDB In-Memory"
          databases := [] } }

/-- The `addDataSourceConnection` reducer. -/
def addDataSourceConnection (state : DataSourceState)
    (connections : List DataSourceConnection) : DataSourceState :=
  if connections.length = 0 then state
  else
    { latestEngineSelected := state.latestEngineSelected
      connectionsMap :=
        connections.foldl (fun m conn => jsSet m conn.name conn)
          state.connectionsMap }

/-- The `filterDataSourcesFromVariables` reducer. -/
def filterDataSourcesFromVariables (state : DataSourceState)
    (variableNames : List String) : DataSourceState :=
  let newMap :=
    state.connectionsMap.filter
      (fun p => p.1 = DEFAULT_ENGINE ∨ p.1 ∈ variableNames)
  { latestEngineSelected :=
      if jsHas newMap state.latestEngineSelected then
        state.latestEngineSelected
      else DEFAULT_ENGINE
    connectionsMap := newMap }

/-- The `clearDataSourceConnections` reducer. -/
def clearDataSourceConnections (_state : DataSourceState) : DataSourceState :=
  { latestEngineSelected := DEFAULT_ENGINE
    connectionsMap := [] }

/-- The `removeDataSourceConnection` reducer. -/
def removeDataSourceConnection (state : DataSourceState)
    (connectionName : String) : DataSourceState :=
  let newMap := jsDelete state.connectionsMap connectionName
  { latestEngineSelected :=
      if jsHas newMap state.latestEngineSelected then
        state.latestEngineSelected
      else DEFAULT_ENGINE
    connectionsMap := newMap }

/-- `setLatestEngineSelected` from `data-source-connections.ts`:
updates the store only when the engine is a key of the map. -/
def setLatestEngineSelected (state : DataSourceState)
    (engine : String) : DataSourceState :=
  if jsHas state.connectionsMap engine then
    { state with latestEngineSelected := engine }
  else state

/-- `allTablesAtom` from `data-source-connections.ts`: local dataset
tables first under their bare names, then every connection table under
the first available of bare name, `schema.table`,
`database.schema.table`. -/
def allTables (datasets : List DataTable)
    (connections : JSMap DataSourceConnection) : JSMap DataTable :=
  let tableNames : JSMap DataTable :=
    datasets.foldl (fun m dataset => jsSet m dataset.name dataset) []
  connections.foldl
    (fun m p =>
      p.2.databases.foldl
        (fun m database =>
          database.schemas.foldl
            (fun m schema =>
              schema.tables.foldl
                (fun m table =>
                  let nameToSave :=
                    if jsHas m table.name then
                      let qualified := schema.name ++ "." ++ table.name
                      if jsHas m qualified then
                        database.name ++ "." ++ schema.name ++ "." ++ table.name
                      else qualified
                    else table.name
                  jsSet m nameToSave table)
                m)
            m)
        m)
    tableNames

/-! ### Actions of the connection-registry reducer -/

/-- The actions of the reducer created by `createReducerAndAtoms`, plus
the `setLatestEngineSelected` store update. -/
inductive DataSourceAction where
  | addConnections (connections : List DataSourceConnection)
  | filterFromVariables (variableNames : List String)
  | clear
  | remove (connectionName : String)
  | setEngine (engine : String)
deriving Repr

/-- Dispatch one action to the state, as the reducer does. -/
def applyAction (s : DataSourceState) : DataSourceAction → DataSourceState
  | DataSourceAction.addConnections cs => addDataSourceConnection s cs
  | DataSourceAction.filterFromVariables ns => filterDataSourcesFromVariables s ns
  | DataSourceAction.clear => clearDataSourceConnections s
  | DataSourceAction.remove n => removeDataSourceConnection s n
  | DataSourceAction.setEngine e => setLatestEngineSelected s e

/-- Run a sequence of actions from the initial state. -/
def runActions (actions : List DataSourceAction) : DataSourceState :=
  actions.foldl applyAction initialState

/-! ### Specification-side reading of the collision rule (for `allTablesAtom`) -/

/-- The collision rule as the spec words it: a table is stored under its
bare name if that name is not yet present, otherwise under
`schema_name.table_name`, and if that too is already present, under
`database_name.schema_name.table_name`. -/
def collisionInsert (m : JSMap DataTable) (databaseName schemaName : String)
    (table : DataTable) : JSMap DataTable :=
  if jsHas m table.name then
    if jsHas m (schemaName ++ "." ++ table.name) then
      jsSet m (databaseName ++ "." ++ schemaName ++ "." ++ table.name) table
    else
      jsSet m (schemaName ++ "." ++ table.name) table
  else
    jsSet m table.name table

/-- Every `(database_name, schema_name, table)` triple of every
connection, in iteration order. -/
def connTableTriples (connections : JSMap DataSourceConnection) :
    List (String × String × DataTable) :=
  connections.flatMap (fun p =>
    p.2.databases.flatMap (fun database =>
      database.schemas.flatMap (fun schema =>
        schema.tables.map (fun table => (database.name, schema.name, table)))))

/-- The description of `allTablesAtom` given by the spec: local dataset tables are
inserted first under their bare names; then every connection table is
inserted by the collision rule. -/
def allTablesSpec (datasets : List DataTable)
    (connections : JSMap DataSourceConnection) : JSMap DataTable :=
  (connTableTriples connections).foldl
    (fun m tr => collisionInsert m tr.1 tr.2.1 tr.2.2)
    (datasets.foldl (fun m dataset => jsSet m dataset.name dataset) [])

/-! ### Code-snippet emission (datasources panel) -/

/-- A single-quote character as a string (the generated snippets wrap the
SQL in single quotes). -/
def singleQuote : String := String.singleton (Char.ofNat 39)

/-- JS template-literal interpolation of a `string | null` value. -/
def templateStr : Option String → String
  | some s => s
  | none => "null"

/-- JS truthiness of a `string | null` value (`null` and the empty
string are falsy). -/
def jsTruthy : Option String → Bool
  | some s => s ≠ ""
  | none => false

/-- The `code` computed by `handleAddTable` in `datasources-panel.tsx`,
by `source_type` of the table. -/
def handleAddTableCode (table : DataTable) : String :=
  match table.source_type with
  | SourceType.local_ => "mo.ui.table(" ++ table.name ++ ")"
  | SourceType.duckdb =>
      "_df = mo.sql(f\"SELECT * FROM " ++ table.name ++ " LIMIT 100\")"
  | SourceType.connection =>
      "_df = mo.sql(f\"SELECT * FROM " ++ table.name ++ " LIMIT 100\", engine="
        ++ templateStr table.engine ++ ")"

/-- `sqlCode` from `datasources-panel.tsx`: the per-column snippet. -/
def sqlCode (table : DataTable) (column : DataTableColumn) : String :=
  if jsTruthy table.engine then
    "_df = mo.sql(f" ++ singleQuote ++ "SELECT \"" ++ column.name
      ++ "\" FROM " ++ table.name ++ " LIMIT 100" ++ singleQuote
      ++ ", engine=" ++ templateStr table.engine ++ ")"
  else
    "_df = mo.sql(f" ++ singleQuote ++ "SELECT \"" ++ column.name
      ++ "\" FROM " ++ table.name ++ " LIMIT 100" ++ singleQuote ++ ")"

/-! ### SQL engine selector (`LanguagePanelComponent`) -/

/-- The part of `SQLLanguageAdapter` the selector mutates. -/
structure SQLLanguageAdapterState where
  engine : String
deriving Repr, DecidableEq

/-- The local state of `SQLEngineSelect`. -/
structure EngineSelectState where
  adapter : SQLLanguageAdapterState
  selectedEngine : Option DataSourceConnection
deriving Repr, DecidableEq

/-- `handleSelectEngine` from the language panel: looks the value up in
the connections map; when found it selects the engine on the adapter,
stores it locally and fires `onChange` (the returned list of emitted
engine names); when not found it does nothing. -/
def handleSelectEngine (connectionsMap : JSMap DataSourceConnection)
    (st : EngineSelectState) (value : String) :
    EngineSelectState × List String :=
  match jsGet connectionsMap value with
  | some nextEngine =>
      ({ adapter := { engine := nextEngine.name }
         selectedEngine := some nextEngine },
       [nextEngine.name])
  | none => (st, [])

/-! ### Data-table row ids (`getRowId`) -/

/-- A data row as `getRowId` sees it: it may carry the stable
`INDEX_COLUMN_NAME` column, whose value is stringified. -/
structure RowObject where
  indexColumnValue : Option Int
deriving Repr, DecidableEq

/-- `PaginationState` of the table library. -/
structure PaginationState where
  pageIndex : Nat
  pageSize : Nat
deriving Repr, DecidableEq

/-- `getRowId` from the data-table component: prefer the stable index
column; otherwise the in-page index, offset by
`pageIndex * pageSize` under manual (server-side) pagination. -/
def getRowId (row : RowObject) (idx : Nat)
    (paginationState : Option PaginationState)
    (manualPagination : Bool) : String :=
  match row.indexColumnValue with
  | some v => toString v
  | none =>
    match paginationState with
    | none => toString idx
    | some ps =>
      let offset := if manualPagination then ps.pageIndex * ps.pageSize else 0
      toString (idx + offset)

/-! ### Virtualized table body rendering -/

/-- A virtual item produced by the row virtualizer: the row index it
stands for and its start offset in pixels. -/
structure VirtualItem where
  index : Nat
  start : Nat
deriving Repr, DecidableEq, Inhabited

/-- A row of the row model of the table, with its visible cells split into
the left-pinned, center and right-pinned groups. Cells are abstract
(identified by their cell data). -/
structure TableRowModel where
  id : String
  leftVisibleCells : List String
  centerVisibleCells : List String
  rightVisibleCells : List String
deriving Repr, DecidableEq, Inhabited

/-- A rendered `TableRow` element: its key, its `translateY` offset and
its children cells in render order. -/
structure RenderedRow where
  key : String
  translateY : Nat
  cells : List String
deriving Repr, DecidableEq, Inhabited

/-- The rendered `tbody` element: its height style and its rendered
rows. -/
structure RenderedBody where
  height : Nat
  rows : List RenderedRow
deriving Repr, DecidableEq, Inhabited

/-- The options passed to `useVirtualizer`. -/
structure VirtualizerConfig where
  count : Nat
  estimateSize : Nat
  overscan : Nat
deriving Repr, DecidableEq

/-- The `useVirtualizer` options of the virtualized `DataTableInternal`:
`count` is the row-model length, estimated row height 33, overscan 5. -/
def rowVirtualizerConfig (rows : List TableRowModel) : VirtualizerConfig :=
  { count := rows.length
    estimateSize := 33
    overscan := 5 }

/-- One `TableRow` as rendered for a virtual item: positioned by
`translateY(virtualRow.start)`, children are the left-pinned, then
center, then right-pinned visible cells. -/
def renderVirtualRow (rows : List TableRowModel)
    (virtualRow : VirtualItem) : RenderedRow :=
  let row := rows.getD virtualRow.index default
  { key := row.id
    translateY := virtualRow.start
    cells := row.leftVisibleCells ++ row.centerVisibleCells
      ++ row.rightVisibleCells }

/-- The `tbody` of the virtualized `DataTableInternal`: height is the
total size of the virtualizer, and one row is rendered per virtual item of
the current window. -/
def renderVirtualizedBody (rows : List TableRowModel)
    (virtualItems : List VirtualItem) (totalSize : Nat) : RenderedBody :=
  { height := totalSize
    rows := virtualItems.map (renderVirtualRow rows) }

/-! ### Lemmas about the `JSMap` operations -/

namespace JSMap

theorem jsGet_cons (a : String) (b : α) (t : JSMap α) (n : String) :
    jsGet ((a, b) :: t) n = if a = n then some b else jsGet t n := by
  by_cases h : a = n
  · rw [if_pos h]
    unfold jsGet
    rw [List.find?_cons_of_pos _ (by simpa using h)]
    rfl
  · rw [if_neg h]
    unfold jsGet
    rw [List.find?_cons_of_neg _ (by simpa using h)]

theorem jsHas_cons (a : String) (b : α) (t : JSMap α) (n : String) :
    jsHas ((a, b) :: t) n = (decide (a = n) || jsHas t n) := by
  simp [jsHas]

theorem jsGet_eq_none_of_not_has (m : JSMap α) (n : String)
    (h : jsHas m n = false) : jsGet m n = none := by
  induction m with
  | nil => rfl
  | cons p t ih =>
    obtain ⟨a, b⟩ := p
    rw [jsHas_cons] at h
    rw [jsGet_cons]
    simp only [Bool.or_eq_false_iff, decide_eq_false_iff_not] at h
    rw [if_neg h.1]
    exact ih h.2

theorem jsHas_eq_isSome (m : JSMap α) (n : String) :
    jsHas m n = (jsGet m n).isSome := by
  induction m with
  | nil => rfl
  | cons p t ih =>
    obtain ⟨a, b⟩ := p
    rw [jsHas_cons, jsGet_cons]
    by_cases h : a = n <;> simp [h, ih]

theorem jsGet_replace (m : JSMap α) (k : String) (v : α) (n : String) :
    jsGet (m.map (fun p => if p.1 = k then (k, v) else p)) n =
      if n = k then (if jsHas m k then some v else none) else jsGet m n := by
  induction m with
  | nil => by_cases h : n = k <;> simp [jsGet, jsHas, h]
  | cons p t ih =>
    obtain ⟨a, b⟩ := p
    simp only [List.map_cons]
    by_cases hp : a = k <;> by_cases hn : a = n <;> by_cases hnk : n = k <;>
      simp_all [jsGet_cons, jsHas_cons]

theorem jsGet_append (m1 m2 : JSMap α) (n : String) :
    jsGet (m1 ++ m2) n = if jsHas m1 n then jsGet m1 n else jsGet m2 n := by
  induction m1 with
  | nil => simp [jsGet, jsHas]
  | cons p t ih =>
    obtain ⟨a, b⟩ := p
    rw [List.cons_append]
    by_cases h : a = n <;> simp_all [jsGet_cons, jsHas_cons]

theorem jsGet_jsSet (m : JSMap α) (k : String) (v : α) (n : String) :
    jsGet (jsSet m k v) n = if n = k then some v else jsGet m n := by
  unfold jsSet
  by_cases hk : m.any (fun p => p.1 = k)
  · rw [if_pos hk, jsGet_replace]
    by_cases hn : n = k
    · rw [if_pos hn, if_pos hn, if_pos]
      exact hk
    · rw [if_neg hn, if_neg hn]
  · rw [if_neg hk, jsGet_append]
    have hfalse : jsHas m k = false := by
      exact Bool.eq_false_iff.mpr hk
    have hnone : jsGet m k = none := jsGet_eq_none_of_not_has m k hfalse
    by_cases hn : n = k
    · subst hn
      rw [if_neg (by simp [hfalse]), if_pos rfl, jsGet_cons, if_pos rfl]
    · by_cases hm : jsHas m n
      · rw [if_pos hm, if_neg hn]
      · rw [if_neg (by simpa using hm), if_neg hn,
          jsGet_eq_none_of_not_has m n (by simpa using hm), jsGet_cons,
          if_neg (fun h => hn h.symm)]
        rfl

theorem jsHas_jsSet (m : JSMap α) (k : String) (v : α) (n : String) :
    jsHas (jsSet m k v) n = (decide (n = k) || jsHas m n) := by
  rw [jsHas_eq_isSome, jsGet_jsSet, jsHas_eq_isSome]
  by_cases h : n = k <;> simp [h]

theorem jsGet_jsDelete (m : JSMap α) (k : String) (n : String) :
    jsGet (jsDelete m k) n = if n = k then none else jsGet m n := by
  induction m with
  | nil => by_cases h : n = k <;> simp [jsGet, jsDelete, h]
  | cons p t ih =>
    obtain ⟨a, b⟩ := p
    simp only [jsDelete, List.filter_cons] at *
    by_cases hp : a = k <;> by_cases hn : a = n <;> by_cases hnk : n = k <;>
      simp_all [jsGet_cons]

theorem jsHas_jsDelete (m : JSMap α) (k : String) (n : String) :
    jsHas (jsDelete m k) n = (decide (¬ n = k) && jsHas m n) := by
  rw [jsHas_eq_isSome, jsGet_jsDelete, jsHas_eq_isSome]
  by_cases h : n = k <;> simp [h]

theorem jsGet_filter_key (m : JSMap α) (P : String → Bool) (n : String) :
    jsGet (m.filter (fun p => P p.1)) n = if P n then jsGet m n else none := by
  induction m with
  | nil => by_cases h : P n <;> simp [jsGet, h]
  | cons p t ih =>
    obtain ⟨a, b⟩ := p
    simp only [List.filter_cons]
    by_cases hP : P a <;> by_cases hn : a = n <;>
      simp_all [jsGet_cons]

theorem jsHas_filter_key (m : JSMap α) (P : String → Bool) (n : String) :
    jsHas (m.filter (fun p => P p.1)) n = (P n && jsHas m n) := by
  rw [jsHas_eq_isSome, jsGet_filter_key, jsHas_eq_isSome]
  by_cases h : P n <;> simp [h]

end JSMap

/-! ### Folding lemmas for the reducers -/

open JSMap

/-- The last connection in `cs` bearing name `n`, if any (the backend
dedupes by connection name keeping the latest, and so does the fold). -/
def lastConnNamed (cs : List DataSourceConnection) (n : String) :
    Option DataSourceConnection :=
  cs.reverse.find? (fun c => c.name = n)

theorem jsGet_foldl_set (cs : List DataSourceConnection)
    (m0 : JSMap DataSourceConnection) (n : String) :
    jsGet (cs.foldl (fun m conn => jsSet m conn.name conn) m0) n =
      (lastConnNamed cs n).or (jsGet m0 n) := by
  induction cs generalizing m0 with
  | nil =>
    rw [List.foldl_nil]
    rw [show lastConnNamed [] n = none from rfl, Option.none_or]
  | cons c t ih =>
    rw [List.foldl_cons, ih]
    have hsplit : lastConnNamed (c :: t) n =
        (lastConnNamed t n).or (List.find? (fun c => c.name = n) [c]) := by
      unfold lastConnNamed
      rw [List.reverse_cons, List.find?_append]
    rw [hsplit, Option.or_assoc]
    congr 1
    by_cases hc : c.name = n
    · rw [jsGet_jsSet, if_pos hc.symm,
        List.find?_cons_of_pos _ (by simpa using hc)]
      rfl
    · rw [jsGet_jsSet, if_neg (fun h => hc h.symm),
        List.find?_cons_of_neg _ (by simpa using hc)]
      rw [List.find?_nil, Option.none_or]

theorem jsHas_foldl_set_of_has (cs : List DataSourceConnection)
    (m0 : JSMap DataSourceConnection) (n : String)
    (h : jsHas m0 n = true) :
    jsHas (cs.foldl (fun m conn => jsSet m conn.name conn) m0) n = true := by
  rw [jsHas_eq_isSome, jsGet_foldl_set]
  rw [jsHas_eq_isSome] at h
  cases lastConnNamed cs n with
  | none => rw [Option.none_or]; exact h
  | some c => rfl

/-- Generic fusion of a `foldl` over a `flatMap` into a nested `foldl`. -/
theorem foldl_flatMap_eq {α β γ : Type} (l : List γ) (g : γ → List α)
    (f : β → α → β) (init : β) :
    (l.flatMap g).foldl f init = l.foldl (fun acc c => (g c).foldl f acc) init := by
  induction l generalizing init with
  | nil => rfl
  | cons c t ih =>
    rw [List.flatMap_cons, List.foldl_append, List.foldl_cons, ih]

/-- Pointwise-equal step functions give equal folds. -/
theorem foldl_congr_fun {α β : Type} {f g : β → α → β}
    (h : ∀ b a, f b a = g b a) (l : List α) (init : β) :
    l.foldl f init = l.foldl g init := by
  induction l generalizing init with
  | nil => rfl
  | cons a t ih => rw [List.foldl_cons, List.foldl_cons, h, ih]

/-- The loop body of `allTablesAtom` is the collision rule of the spec. -/
theorem allTables_step_eq (m : JSMap DataTable) (databaseName schemaName : String)
    (table : DataTable) :
    jsSet m
      (if jsHas m table.name then
        if jsHas m (schemaName ++ "." ++ table.name) then
          databaseName ++ "." ++ schemaName ++ "." ++ table.name
        else schemaName ++ "." ++ table.name
      else table.name) table
      = collisionInsert m databaseName schemaName table := by
  unfold collisionInsert
  by_cases h1 : jsHas m table.name
  · rw [if_pos h1, if_pos h1]
    by_cases h2 : jsHas m (schemaName ++ "." ++ table.name)
    · rw [if_pos h2, if_pos h2]
    · rw [if_neg h2, if_neg h2]
  · rw [if_neg h1, if_neg h1]

/-- C1: name-collision resolution in `allTablesAtom`: local dataset
tables are inserted first under their bare names; then every table of
every database/schema of every connection is stored under its bare name if
that name is not yet present, otherwise under `schema_name.table_name`,
and if that too is already present, under
`database_name.schema_name.table_name` (`allTablesSpec` is that
description verbatim, over the flattened triple list). -/
theorem c1_allTables_collision_resolution
    (datasets : List DataTable) (connections : JSMap DataSourceConnection) :
    allTables datasets connections = allTablesSpec datasets connections := by
  simp only [allTables, allTablesSpec, connTableTriples, foldl_flatMap_eq,
    List.foldl_map]
  apply foldl_congr_fun
  intro m p
  apply foldl_congr_fun
  intro m1 database
  apply foldl_congr_fun
  intro m2 schema
  apply foldl_congr_fun
  intro m3 table
  exact allTables_step_eq m3 database.name schema.name table

/-- C2: `addDataSourceConnection` merges connection lists by name: for
every prior state and non-empty connection list, each name is mapped to
the last connection in the list bearing it (overwriting any existing
entry), and every prior entry whose name does not occur in the list is
retained unchanged. -/
theorem c2_addDataSourceConnection_merges_by_name
    (state : DataSourceState) (connections : List DataSourceConnection)
    (hne : connections ≠ []) (n : String) :
    jsGet (addDataSourceConnection state connections).connectionsMap n =
      match lastConnNamed connections n with
      | some c => some c
      | none => jsGet state.connectionsMap n := by
  unfold addDataSourceConnection
  rw [if_neg (by simpa [List.length_eq_zero] using hne)]
  show jsGet (connections.foldl (fun m conn => jsSet m conn.name conn)
      state.connectionsMap) n = _
  rw [jsGet_foldl_set]
  cases lastConnNamed connections n <;> rfl

/-- Witness for C2 at a concrete input: two connections named `pg`, the
second (with a dialect) wins; the untouched default entry survives. -/
theorem c2_witness :
    jsGet (addDataSourceConnection initialState
        [{ name := "pg" }, { name := "pg", dialect := "postgres" }]).connectionsMap
        "pg"
      = some { name := "pg", dialect := "postgres" } := by
  rw [c2_addDataSourceConnection_merges_by_name initialState
    [{ name := "pg" }, { name := "pg", dialect := "postgres" }]
    (by decide) "pg"]
  rfl

/-- C3: `filterDataSourcesFromVariables` keeps exactly the default
engine entry (if previously present) plus the prior connections whose
name equals one of the given variable names, and keeps
`latestEngineSelected` exactly when that connection survives the
filter, resetting it to `DEFAULT_ENGINE` otherwise. -/
theorem c3_filterDataSources_keeps_default_and_variables
    (state : DataSourceState) (variableNames : List String) (n : String) :
    (jsGet (filterDataSourcesFromVariables state variableNames).connectionsMap n =
      if n = DEFAULT_ENGINE ∨ n ∈ variableNames then
        jsGet state.connectionsMap n
      else none) ∧
    ((filterDataSourcesFromVariables state variableNames).latestEngineSelected =
      if (state.latestEngineSelected = DEFAULT_ENGINE ∨
            state.latestEngineSelected ∈ variableNames) ∧
          jsHas state.connectionsMap state.latestEngineSelected = true then
        state.latestEngineSelected
      else DEFAULT_ENGINE) := by
  have hget : jsGet (state.connectionsMap.filter
        (fun p => decide (p.1 = DEFAULT_ENGINE ∨ p.1 ∈ variableNames))) n =
      if decide (n = DEFAULT_ENGINE ∨ n ∈ variableNames) then
        jsGet state.connectionsMap n
      else none :=
    jsGet_filter_key state.connectionsMap
      (fun k => decide (k = DEFAULT_ENGINE ∨ k ∈ variableNames)) n
  have hhas : jsHas (state.connectionsMap.filter
        (fun p => decide (p.1 = DEFAULT_ENGINE ∨ p.1 ∈ variableNames)))
        state.latestEngineSelected =
      (decide (state.latestEngineSelected = DEFAULT_ENGINE ∨
          state.latestEngineSelected ∈ variableNames)
        && jsHas state.connectionsMap state.latestEngineSelected) :=
    jsHas_filter_key state.connectionsMap
      (fun k => decide (k = DEFAULT_ENGINE ∨ k ∈ variableNames))
      state.latestEngineSelected
  constructor
  · show jsGet (state.connectionsMap.filter
        (fun p => decide (p.1 = DEFAULT_ENGINE ∨ p.1 ∈ variableNames))) n = _
    rw [hget]
    by_cases h : n = DEFAULT_ENGINE ∨ n ∈ variableNames <;> simp [h]
  · show (if jsHas (state.connectionsMap.filter
          (fun p => decide (p.1 = DEFAULT_ENGINE ∨ p.1 ∈ variableNames)))
          state.latestEngineSelected then
        state.latestEngineSelected
      else DEFAULT_ENGINE) = _
    rw [hhas]
    by_cases h1 : state.latestEngineSelected = DEFAULT_ENGINE ∨
        state.latestEngineSelected ∈ variableNames <;>
      by_cases h2 : jsHas state.connectionsMap state.latestEngineSelected = true <;>
        simp [h1, h2]

/-- C9: `addDataSourceConnection` is the identity on the empty list,
never changes `latestEngineSelected`, and is monotone on the keys of
`connectionsMap`. -/
theorem c9_addDataSourceConnection_algebraic
    (state : DataSourceState) (connections : List DataSourceConnection)
    (n : String) (h : jsHas state.connectionsMap n = true) :
    addDataSourceConnection state [] = state ∧
    (addDataSourceConnection state connections).latestEngineSelected =
      state.latestEngineSelected ∧
    jsHas (addDataSourceConnection state connections).connectionsMap n = true := by
  refine ⟨rfl, ?_, ?_⟩
  · unfold addDataSourceConnection
    by_cases hc : connections.length = 0
    · rw [if_pos hc]
    · rw [if_neg hc]
  · unfold addDataSourceConnection
    by_cases hc : connections.length = 0
    · rw [if_pos hc]
      exact h
    · rw [if_neg hc]
      exact jsHas_foldl_set_of_has connections state.connectionsMap n h

/-- Witness for C9 at a concrete input: the default engine key of the
initial state survives adding a `pg` connection. -/
theorem c9_witness :
    addDataSourceConnection initialState [] = initialState ∧
    (addDataSourceConnection initialState
        [{ name := "pg" }]).latestEngineSelected =
      initialState.latestEngineSelected ∧
    jsHas (addDataSourceConnection initialState
        [{ name := "pg" }]).connectionsMap DEFAULT_ENGINE = true :=
  c9_addDataSourceConnection_algebraic initialState [{ name := "pg" }]
    DEFAULT_ENGINE (by decide)

/-- C10: `removeDataSourceConnection` does not protect the default
engine: removing `DEFAULT_ENGINE` from the initial state leaves a map
without the default connection while `latestEngineSelected` is still
`DEFAULT_ENGINE`, so the selected engine names an absent connection. -/
theorem c10_removeDataSourceConnection_default_unprotected :
    jsHas (removeDataSourceConnection initialState DEFAULT_ENGINE).connectionsMap
        DEFAULT_ENGINE = false ∧
    (removeDataSourceConnection initialState DEFAULT_ENGINE).latestEngineSelected =
      DEFAULT_ENGINE := by
  decide

/-- C6: selecting a SQL engine takes effect only for engines present in
the connections map: `setLatestEngineSelected` never changes
`connectionsMap`, it updates only `latestEngineSelected` when the
engine is a key, and it leaves the whole state unchanged when it is
not; likewise `handleSelectEngine` does nothing when the chosen value
is not in the map. -/
theorem c6_engine_selection_frame
    (state : DataSourceState) (engine : String)
    (m : JSMap DataSourceConnection) (st : EngineSelectState) (value : String) :
    (setLatestEngineSelected state engine).connectionsMap = state.connectionsMap ∧
    (jsHas state.connectionsMap engine = true →
      setLatestEngineSelected state engine =
        { state with latestEngineSelected := engine }) ∧
    (jsHas state.connectionsMap engine = false →
      setLatestEngineSelected state engine = state) ∧
    (jsGet m value = none → handleSelectEngine m st value = (st, [])) := by
  refine ⟨?_, ?_, ?_, ?_⟩
  · unfold setLatestEngineSelected
    by_cases h : jsHas state.connectionsMap engine
    · rw [if_pos h]
    · rw [if_neg h]
  · intro h
    unfold setLatestEngineSelected
    rw [if_pos h]
  · intro h
    unfold setLatestEngineSelected
    rw [if_neg (by simp [h])]
  · intro h
    unfold handleSelectEngine
    rw [h]

/-- Witness for C6 at concrete inputs: an engine in the map is
selected, a missing engine leaves the state alone, and
`handleSelectEngine` on a missing value does nothing. -/
theorem c6_witness :
    setLatestEngineSelected initialState DEFAULT_ENGINE =
      { initialState with latestEngineSelected := DEFAULT_ENGINE } ∧
    setLatestEngineSelected initialState "missing" = initialState ∧
    handleSelectEngine []
        { adapter := { engine := "a" }, selectedEngine := none } "missing" =
      ({ adapter := { engine := "a" }, selectedEngine := none }, []) := by
  refine ⟨?_, ?_, ?_⟩
  · exact (c6_engine_selection_frame initialState DEFAULT_ENGINE []
      { adapter := { engine := "a" }, selectedEngine := none } "x").2.1 (by decide)
  · exact (c6_engine_selection_frame initialState "missing" []
      { adapter := { engine := "a" }, selectedEngine := none } "x").2.2.1 (by decide)
  · exact (c6_engine_selection_frame initialState "missing" []
      { adapter := { engine := "a" }, selectedEngine := none } "missing").2.2.2 rfl

/-- C5: code-snippet emission: `handleAddTable` adds
`mo.ui.table(<name>)` for a local table, a `mo.sql` call selecting from
the table with `LIMIT 100` for a duckdb table, and the same call with
`engine=<table engine>` for a connection table (interpolating
`engine=null` when the engine is null); the per-column snippet selects
the quoted column name with `LIMIT 100` and includes `engine=` exactly
when the table has an engine, read as JS truthiness: a non-null engine
that is also non-empty yields the `engine=` form, and any falsy engine
(null or the empty string, `jsTruthy` false) yields the form without
`engine=`, so the two directions cover every engine value. -/
theorem c5_code_snippet_emission (t : DataTable) (c : DataTableColumn)
    (e : String) :
    (t.source_type = SourceType.local_ →
      handleAddTableCode t = "mo.ui.table(" ++ t.name ++ ")") ∧
    (t.source_type = SourceType.duckdb →
      handleAddTableCode t =
        "_df = mo.sql(f\"SELECT * FROM " ++ t.name ++ " LIMIT 100\")") ∧
    (t.source_type = SourceType.connection → t.engine = some e →
      handleAddTableCode t =
        "_df = mo.sql(f\"SELECT * FROM " ++ t.name ++ " LIMIT 100\", engine="
          ++ e ++ ")") ∧
    (t.source_type = SourceType.connection → t.engine = none →
      handleAddTableCode t =
        "_df = mo.sql(f\"SELECT * FROM " ++ t.name
          ++ " LIMIT 100\", engine=" ++ "null" ++ ")") ∧
    (t.engine = some e → e ≠ "" →
      sqlCode t c =
        "_df = mo.sql(f" ++ singleQuote ++ "SELECT \"" ++ c.name
          ++ "\" FROM " ++ t.name ++ " LIMIT 100" ++ singleQuote
          ++ ", engine=" ++ e ++ ")") ∧
    (t.engine = none →
      sqlCode t c =
        "_df = mo.sql(f" ++ singleQuote ++ "SELECT \"" ++ c.name
          ++ "\" FROM " ++ t.name ++ " LIMIT 100" ++ singleQuote ++ ")") ∧
    (jsTruthy t.engine = false →
      sqlCode t c =
        "_df = mo.sql(f" ++ singleQuote ++ "SELECT \"" ++ c.name
          ++ "\" FROM " ++ t.name ++ " LIMIT 100" ++ singleQuote ++ ")") := by
  refine ⟨?_, ?_, ?_, ?_, ?_, ?_, ?_⟩
  · intro h
    simp [handleAddTableCode, h]
  · intro h
    simp [handleAddTableCode, h]
  · intro h he
    simp [handleAddTableCode, h, he, templateStr]
  · intro h he
    simp [handleAddTableCode, h, he, templateStr]
  · intro h he
    simp [sqlCode, jsTruthy, h, he, templateStr]
  · intro h
    simp [sqlCode, jsTruthy, h]
  · intro h
    simp [sqlCode, h]

/-- Witness for C5 at concrete tables: one local, one duckdb, one
connection-backed with an engine, one connection-backed with a null
engine, plus the column-snippet shapes for a truthy engine, a null
engine and an empty-string (falsy) engine. -/
theorem c5_witness :
    handleAddTableCode { name := "df", source_type := SourceType.local_ } =
      "mo.ui.table(" ++ "df" ++ ")" ∧
    handleAddTableCode { name := "t", source_type := SourceType.duckdb } =
      "_df = mo.sql(f\"SELECT * FROM " ++ "t" ++ " LIMIT 100\")" ∧
    handleAddTableCode
        { name := "t", source_type := SourceType.connection,
          engine := some "pg" } =
      "_df = mo.sql(f\"SELECT * FROM " ++ "t" ++ " LIMIT 100\", engine="
        ++ "pg" ++ ")" ∧
    handleAddTableCode { name := "t", source_type := SourceType.connection } =
      "_df = mo.sql(f\"SELECT * FROM " ++ "t" ++ " LIMIT 100\", engine="
        ++ "null" ++ ")" ∧
    sqlCode
        { name := "t", source_type := SourceType.connection,
          engine := some "pg" } { name := "col" } =
      "_df = mo.sql(f" ++ singleQuote ++ "SELECT \"" ++ "col"
        ++ "\" FROM " ++ "t" ++ " LIMIT 100" ++ singleQuote
        ++ ", engine=" ++ "pg" ++ ")" ∧
    sqlCode { name := "t", source_type := SourceType.duckdb } { name := "col" } =
      "_df = mo.sql(f" ++ singleQuote ++ "SELECT \"" ++ "col"
        ++ "\" FROM " ++ "t" ++ " LIMIT 100" ++ singleQuote ++ ")" ∧
    sqlCode
        { name := "t", source_type := SourceType.connection,
          engine := some "" } { name := "col" } =
      "_df = mo.sql(f" ++ singleQuote ++ "SELECT \"" ++ "col"
        ++ "\" FROM " ++ "t" ++ " LIMIT 100" ++ singleQuote ++ ")" := by
  refine ⟨?_, ?_, ?_, ?_, ?_, ?_, ?_⟩
  · exact (c5_code_snippet_emission
      { name := "df", source_type := SourceType.local_ } { name := "col" }
      "pg").1 rfl
  · exact (c5_code_snippet_emission
      { name := "t", source_type := SourceType.duckdb } { name := "col" }
      "pg").2.1 rfl
  · exact (c5_code_snippet_emission
      { name := "t", source_type := SourceType.connection, engine := some "pg" }
      { name := "col" } "pg").2.2.1 rfl rfl
  · exact (c5_code_snippet_emission
      { name := "t", source_type := SourceType.connection } { name := "col" }
      "pg").2.2.2.1 rfl rfl
  · exact (c5_code_snippet_emission
      { name := "t", source_type := SourceType.connection, engine := some "pg" }
      { name := "col" } "pg").2.2.2.2.1 rfl (by decide)
  · exact (c5_code_snippet_emission
      { name := "t", source_type := SourceType.duckdb } { name := "col" }
      "pg").2.2.2.2.2.1 rfl
  · exact (c5_code_snippet_emission
      { name := "t", source_type := SourceType.connection, engine := some "" }
      { name := "col" } "pg").2.2.2.2.2.2 (by decide)

/-- C7: row-identifier assignment under pagination: the stable index
column is preferred as the row id; otherwise, with no controlled
pagination state the id is the string of the in-page index; otherwise
it is the string of the index plus `pageIndex * pageSize` under manual
(server-side) pagination and of the plain index when not. -/
theorem c7_getRowId_assignment (row : RowObject) (idx : Nat)
    (paginationState : Option PaginationState) (manualPagination : Bool)
    (v : Int) (ps : PaginationState) :
    (row.indexColumnValue = some v →
      getRowId row idx paginationState manualPagination = toString v) ∧
    (row.indexColumnValue = none → paginationState = none →
      getRowId row idx paginationState manualPagination = toString idx) ∧
    (row.indexColumnValue = none → paginationState = some ps →
      manualPagination = true →
      getRowId row idx paginationState manualPagination =
        toString (idx + ps.pageIndex * ps.pageSize)) ∧
    (row.indexColumnValue = none → paginationState = some ps →
      manualPagination = false →
      getRowId row idx paginationState manualPagination = toString idx) := by
  refine ⟨?_, ?_, ?_, ?_⟩
  · intro h
    simp [getRowId, h]
  · intro h1 h2
    simp [getRowId, h1, h2]
  · intro h1 h2 h3
    simp [getRowId, h1, h2, h3]
  · intro h1 h2 h3
    simp [getRowId, h1, h2, h3]

/-- Witness for C7 at concrete inputs: all four id shapes. -/
theorem c7_witness :
    getRowId { indexColumnValue := some 7 } 2 none false = toString (7 : Int) ∧
    getRowId { indexColumnValue := none } 2 none false = toString 2 ∧
    getRowId { indexColumnValue := none } 2
        (some { pageIndex := 3, pageSize := 10 }) true = toString (2 + 3 * 10) ∧
    getRowId { indexColumnValue := none } 2
        (some { pageIndex := 3, pageSize := 10 }) false = toString 2 := by
  refine ⟨?_, ?_, ?_, ?_⟩
  · exact (c7_getRowId_assignment { indexColumnValue := some 7 } 2 none false 7
      { pageIndex := 3, pageSize := 10 }).1 rfl
  · exact (c7_getRowId_assignment { indexColumnValue := none } 2 none false 7
      { pageIndex := 3, pageSize := 10 }).2.1 rfl rfl
  · exact (c7_getRowId_assignment { indexColumnValue := none } 2
      (some { pageIndex := 3, pageSize := 10 }) true 7
      { pageIndex := 3, pageSize := 10 }).2.2.1 rfl rfl rfl
  · exact (c7_getRowId_assignment { indexColumnValue := none } 2
      (some { pageIndex := 3, pageSize := 10 }) false 7
      { pageIndex := 3, pageSize := 10 }).2.2.2 rfl rfl rfl

/-- C8: windowed rendering with pinned columns: the virtualizer is
configured with estimated row height 33 and overscan 5; the rendered
body renders one row per virtual item of the current window (not one
per row-model row), sizes the body to the virtualizer total, positions
each rendered row at its virtual start offset, and renders per row the
left-pinned, then center, then right-pinned visible cells, in that
order. -/
theorem c8_virtualized_rendering (rows : List TableRowModel)
    (virtualItems : List VirtualItem) (totalSize : Nat) (i : Nat)
    (hi : i < virtualItems.length) :
    (rowVirtualizerConfig rows).count = rows.length ∧
    (rowVirtualizerConfig rows).estimateSize = 33 ∧
    (rowVirtualizerConfig rows).overscan = 5 ∧
    (renderVirtualizedBody rows virtualItems totalSize).height = totalSize ∧
    (renderVirtualizedBody rows virtualItems totalSize).rows.length =
      virtualItems.length ∧
    (renderVirtualizedBody rows virtualItems totalSize).rows.getD i default =
      { key := (rows.getD (virtualItems.getD i default).index default).id
        translateY := (virtualItems.getD i default).start
        cells :=
          (rows.getD (virtualItems.getD i default).index default).leftVisibleCells
            ++ (rows.getD (virtualItems.getD i default).index
                  default).centerVisibleCells
            ++ (rows.getD (virtualItems.getD i default).index
                  default).rightVisibleCells } := by
  refine ⟨rfl, rfl, rfl, rfl, ?_, ?_⟩
  · simp [renderVirtualizedBody]
  · simp only [renderVirtualizedBody, List.getD_eq_getElem?_getD,
      List.getElem?_map]
    rw [List.getElem?_eq_getElem hi]
    simp [renderVirtualRow]

/-- Witness for C8 at a concrete window: two virtual items over a
three-row model. -/
theorem c8_witness :
    (renderVirtualizedBody
        [{ id := "0", leftVisibleCells := ["l0"], centerVisibleCells := ["c0"],
           rightVisibleCells := ["r0"] },
         { id := "1", leftVisibleCells := ["l1"], centerVisibleCells := ["c1"],
           rightVisibleCells := ["r1"] },
         { id := "2", leftVisibleCells := ["l2"], centerVisibleCells := ["c2"],
           rightVisibleCells := ["r2"] }]
        [{ index := 1, start := 33 }, { index := 2, start := 66 }]
        99).rows.getD 0 default =
      { key := "1", translateY := 33, cells := ["l1"] ++ ["c1"] ++ ["r1"] } := by
  exact (c8_virtualized_rendering
    [{ id := "0", leftVisibleCells := ["l0"], centerVisibleCells := ["c0"],
       rightVisibleCells := ["r0"] },
     { id := "1", leftVisibleCells := ["l1"], centerVisibleCells := ["c1"],
       rightVisibleCells := ["r1"] },
     { id := "2", leftVisibleCells := ["l2"], centerVisibleCells := ["c2"],
       rightVisibleCells := ["r2"] }]
    [{ index := 1, start := 33 }, { index := 2, start := 66 }]
    99 0 (by decide)).2.2.2.2.2

/-- The invariant of C4: the selected engine is the default or a key of
the connections map. -/
def EngineInv (s : DataSourceState) : Prop :=
  s.latestEngineSelected = DEFAULT_ENGINE ∨
    jsHas s.connectionsMap s.latestEngineSelected = true

/-- The guard used by `filterDataSourcesFromVariables` and
`removeDataSourceConnection` re-establishes the invariant for any
new map. -/
theorem engineInv_of_guard (l : String) (m : JSMap DataSourceConnection) :
    EngineInv { latestEngineSelected := if jsHas m l then l else DEFAULT_ENGINE
                connectionsMap := m } := by
  by_cases h : jsHas m l
  · rw [EngineInv]
    rw [if_pos h]
    exact Or.inr h
  · rw [EngineInv]
    rw [if_neg h]
    exact Or.inl rfl

/-- Every reducer action, and `setLatestEngineSelected`, preserves the
invariant. -/
theorem engineInv_applyAction (s : DataSourceState) (a : DataSourceAction)
    (h : EngineInv s) : EngineInv (applyAction s a) := by
  cases a with
  | addConnections cs =>
    show EngineInv (addDataSourceConnection s cs)
    unfold addDataSourceConnection
    by_cases hc : cs.length = 0
    · rw [if_pos hc]
      exact h
    · rw [if_neg hc]
      cases h with
      | inl h1 => exact Or.inl h1
      | inr h2 => exact Or.inr (jsHas_foldl_set_of_has cs s.connectionsMap _ h2)
  | filterFromVariables ns =>
    exact engineInv_of_guard s.latestEngineSelected
      (s.connectionsMap.filter
        (fun p => decide (p.1 = DEFAULT_ENGINE ∨ p.1 ∈ ns)))
  | clear =>
    exact Or.inl rfl
  | remove n =>
    exact engineInv_of_guard s.latestEngineSelected
      (jsDelete s.connectionsMap n)
  | setEngine e =>
    show EngineInv (setLatestEngineSelected s e)
    unfold setLatestEngineSelected
    by_cases he : jsHas s.connectionsMap e
    · rw [if_pos he]
      exact Or.inr he
    · rw [if_neg he]
      exact h

/-- C4: starting from the initial state, after any sequence of the
reducer actions and of `setLatestEngineSelected`, the field
`latestEngineSelected` is always either `DEFAULT_ENGINE` or a key of
`connectionsMap`. -/
theorem c4_latestEngineSelected_invariant (actions : List DataSourceAction) :
    (runActions actions).latestEngineSelected = DEFAULT_ENGINE ∨
      jsHas (runActions actions).connectionsMap
        (runActions actions).latestEngineSelected = true := by
  have main : ∀ (acts : List DataSourceAction) (s : DataSourceState),
      EngineInv s → EngineInv (acts.foldl applyAction s) := by
    intro acts
    induction acts with
    | nil => exact fun s hs => hs
    | cons a t ih => exact fun s hs => ih _ (engineInv_applyAction s a hs)
  exact main actions initialState (Or.inl rfl)

end Marimo
